import Mathlib

/-!
Verification development for the GPU thermal reporting system
(`data_processor.py` and `database.py`).

The CSV ingestion pipeline and the query layer are embedded shallowly:

* a CSV already read into memory is a `RawFrame` (header plus rows of
  string cells);
* the two external value parsers (pandas `to_datetime` / `to_numeric`
  with `errors='coerce'`) are parameters `pT : String → Option Timestamp`
  and `pF : String → Option Rat`: a `none` result models a coercion
  failure (`NaT`/`NaN`);
* timestamps are integers (epoch seconds), floats are rationals;
* the two database tables are plain lists; the `gpu_metadata` table
  carries a UNIQUE constraint on `gpu_id` in the schema, so lookups by
  GPU identifier use `List.find?`;
* a per-GPU metadata-upsert failure (an SQLAlchemy error caught and
  logged by `_bulk_insert_data`) is modelled by a predicate
  `failMeta : String × String → Bool` on the `(gpu_id, node)` pair.

Python truthiness tests (`if node:`, `if temp_stats[0]:`, `if start_date:`)
are rendered faithfully: an empty string and the number zero are falsy.
-/

namespace GpuThermal

abbrev Timestamp := Int

/-- A CSV file parsed into memory: the header and the data rows
(each row has one string cell per header entry). -/
structure RawFrame where
  header : List String
  rows : List (List String)
deriving DecidableEq

/-- Source `GPUDataProcessor.column_mappings`: for each canonical field,
the acceptable source-column aliases in priority order. -/
def column_mappings : List (String × List String) :=
  [("node", ["node", "host", "server"]),
   ("timestamp", ["timestamp", "time", "datetime"]),
   ("gpu_id", ["gpu_id", "gpu", "device_id", "device"]),
   ("temperature", ["temp", "temperature", "gpu_temp", "thermal"]),
   ("avg_temperature", ["avg_temp", "average_temp", "avg_temperature"]),
   ("reason", ["reason", "issue_type", "type", "status", "event_type"]),
   ("date", ["date", "event_date"])]

def aliasesFor (field : String) : List String :=
  match column_mappings.find? (fun p => p.1 == field) with
  | some p => p.2
  | none => []

/-- The cells of source column `src`, one per row (empty string for a
ragged row; the pipeline never produces those itself). -/
def colValues (f : RawFrame) (src : String) : List String :=
  match f.header.findIdx? (fun h => h == src) with
  | some i => f.rows.map (fun r => r.getD i "")
  | none => []

/-- Step `_map_columns` for one canonical field: the first alias present in the
source header (in declared priority order) provides the column. -/
def selectCol (f : RawFrame) (field : String) : Option (List String) :=
  ((aliasesFor field).find? (fun a => f.header.contains a)).map (colValues f)

/-- The result of `_map_columns`, projected onto the seven canonical
fields (the only columns read downstream). A `none` field means none of
its aliases occurred in the source header. -/
structure MappedFrame where
  node : Option (List String)
  gpu_id : Option (List String)
  timestamp : Option (List String)
  temperature : Option (List String)
  avg_temperature : Option (List String)
  reason : Option (List String)
  date : Option (List String)
deriving DecidableEq

def mapColumns (f : RawFrame) : MappedFrame :=
  { node := selectCol f "node"
    gpu_id := selectCol f "gpu_id"
    timestamp := selectCol f "timestamp"
    temperature := selectCol f "temperature"
    avg_temperature := selectCol f "avg_temperature"
    reason := selectCol f "reason"
    date := selectCol f "date" }

def required_columns : List String := ["node", "gpu_id", "timestamp", "reason"]

/-- Whether the canonical column is present after mapping (only queried
on the four required fields). -/
def hasCol (mf : MappedFrame) : String → Bool
  | "node" => mf.node.isSome
  | "gpu_id" => mf.gpu_id.isSome
  | "timestamp" => mf.timestamp.isSome
  | "reason" => mf.reason.isSome
  | _ => false

/-- Source `missing_columns = [col for col in required_columns if col not in columns]`. -/
def missingColumns (mf : MappedFrame) : List String :=
  required_columns.filter (fun c => !(hasCol mf c))

/-- The error `ValueError(f"Missing required columns: \x7bmissing_columns\x7d")`,
carrying the list the message names. -/
inductive IngestError where
  | missingColumns : List String → IngestError
deriving DecidableEq

/-- One row of the mapped frame: the four required cells (guaranteed
present once validation passed) plus the three optional cells, which are
`none` when the whole column is absent. -/
structure MappedRow where
  node : String
  gpu_id : String
  timestamp : String
  temperature : Option String
  avg_temperature : Option String
  reason : String
  date : Option String
deriving DecidableEq

/-- Row-major view of a mapped frame whose four required columns are all
present (the column-wise pandas operations of `_clean_data` are applied
row by row below; every one of them is element-wise or a row filter, so
the row-major order of application is observationally identical). -/
def frameRows (mf : MappedFrame) : List MappedRow :=
  match mf.node, mf.gpu_id, mf.timestamp, mf.reason with
  | some ns, some gs, some ts, some rs =>
      (List.range ns.length).map (fun i =>
        { node := ns.getD i ""
          gpu_id := gs.getD i ""
          timestamp := ts.getD i ""
          temperature := mf.temperature.map (fun c => c.getD i "")
          avg_temperature := mf.avg_temperature.map (fun c => c.getD i "")
          reason := rs.getD i ""
          date := mf.date.map (fun c => c.getD i "") })
  | _, _, _, _ => []

/-- Python `str.strip` on one side of a character list. -/
def dropLeadingWs : List Char → List Char
  | [] => []
  | c :: rest => if c.isWhitespace then dropLeadingWs rest else c :: rest

/-- Python `str.strip`: surrounding whitespace removed. -/
def strTrim (s : String) : String :=
  String.mk (List.reverse (dropLeadingWs (List.reverse (dropLeadingWs s.toList))))

/-- Python `str.lower` (ASCII). -/
def strLower (s : String) : String :=
  String.mk (s.toList.map Char.toLower)

/-- Source `reason_mapping` of `_clean_data`. -/
def reason_mapping : List (String × String) :=
  [("thermally failed", "failed"),
   ("thermal failure", "failed"),
   ("throttled", "throttled"),
   ("thermal throttling", "throttled"),
   ("throttling", "throttled")]

/-- Source `lambda x: reason_mapping.get(x, x)`. -/
def mapReason (x : String) : String :=
  match reason_mapping.find? (fun p => p.1 == x) with
  | some p => p.2
  | none => x

/-- First `.str.strip()`, then `.str.lower()`, then the synonym map. -/
def normalizeReason (r : String) : String :=
  mapReason (strLower (strTrim r))

def valid_reasons : List String := ["throttled", "failed"]

/-- A row that survived `_clean_data`. -/
structure CleanRow where
  node : String
  gpu_id : String
  timestamp : Timestamp
  temperature : Option Rat
  avg_temperature : Option Rat
  reason : String
  date : Option Timestamp
deriving DecidableEq

/-- The record a surviving row cleans to (timestamp already parsed). -/
def cleanedRow (pT : String → Option Timestamp) (pF : String → Option Rat)
    (r : MappedRow) (ts : Timestamp) : CleanRow :=
  { node := strTrim r.node
    gpu_id := strTrim r.gpu_id
    timestamp := ts
    temperature := r.temperature.bind pF
    avg_temperature := r.avg_temperature.bind pF
    reason := normalizeReason r.reason
    date := r.date.bind pT }

/-- The per-row effect of `_clean_data` after validation: parse the
timestamp (dropping the row on failure), coerce the optional date and
temperature cells (`none` on failure, row kept), normalize the reason and
filter on it, and strip the node / gpu identifiers. -/
def cleanRow (pT : String → Option Timestamp) (pF : String → Option Rat)
    (r : MappedRow) : Option CleanRow :=
  match pT r.timestamp with
  | none => none
  | some ts =>
      if valid_reasons.contains (normalizeReason r.reason) then
        some (cleanedRow pT pF r ts)
      else none

/-- Source `_clean_data`: required-column validation, then the row-level
cleaning pipeline. -/
def cleanData (pT : String → Option Timestamp) (pF : String → Option Rat)
    (mf : MappedFrame) : Except IngestError (List CleanRow) :=
  if (missingColumns mf).isEmpty then
    .ok ((frameRows mf).filterMap (cleanRow pT pF))
  else
    .error (.missingColumns (missingColumns mf))

/-- Python substring test for character lists. -/
def listHasSub (pat : List Char) : List Char → Bool
  | [] => pat.isEmpty
  | c :: rest => pat.isPrefixOf (c :: rest) || listHasSub pat rest

/-- Python `pat in s` on strings. -/
def hasSubstr (s pat : String) : Bool :=
  listHasSub pat.toList s.toList

/-- The issue-type derivation of `_bulk_insert_data` (and
`insert_gpu_event`): substring matching on the reason text. -/
def deriveIssueType (reason : String) : Option String :=
  if hasSubstr (strLower reason) "throttled" then some "throttled"
  else if hasSubstr (strLower reason) "failed" then some "failed"
  else none

/-- A row of the `gpu_thermal_events` table. -/
structure Event where
  node : String
  gpu_id : String
  timestamp : Timestamp
  temperature : Option Rat
  avg_temperature : Option Rat
  issue_type : Option String
  reason : Option String
  date : Option Timestamp
deriving DecidableEq

/-- A row of the `gpu_metadata` table (`gpu_id` is UNIQUE in the schema). -/
structure GPUMetadata where
  gpu_id : String
  node : Option String
  model : Option String
  location : Option String
  max_temp : Option Rat
deriving DecidableEq

/-- The database state: the two tables. -/
structure DB where
  events : List Event
  metadata : List GPUMetadata
deriving DecidableEq

/-- Python truthiness of an optional string (`if node:`):
`None` and `""` are falsy. -/
def truthyStr : Option String → Bool
  | none => false
  | some s => !(s == "")

/-- Python truthiness of an optional number (`if max_temp:`):
`None` and `0` are falsy. -/
def truthyRat : Option Rat → Bool
  | none => false
  | some q => !(q == 0)

/-- Update `if new: existing.field = new` — the old value survives a falsy new one. -/
def updStr (old new : Option String) : Option String :=
  if truthyStr new then new else old

def updRat (old new : Option Rat) : Option Rat :=
  if truthyRat new then new else old

/-- The field-wise update `insert_gpu_metadata` performs on an existing
record: each field overwritten only when the new value is truthy. -/
def updatedMeta (old : GPUMetadata) (node model location : Option String)
    (max_temp : Option Rat) : GPUMetadata :=
  { gpu_id := old.gpu_id
    node := updStr old.node node
    model := updStr old.model model
    location := updStr old.location location
    max_temp := updRat old.max_temp max_temp }

/-- Action of `insert_gpu_metadata` on the `gpu_metadata` table: the first record
matching `gpu_id` (the `.first()` of the query) is updated field-wise
under truthiness; with no match a fresh record is appended. -/
def upsertMeta (g : String) (node model location : Option String)
    (max_temp : Option Rat) : List GPUMetadata → List GPUMetadata
  | [] => [{ gpu_id := g, node := node, model := model,
             location := location, max_temp := max_temp }]
  | m :: rest =>
      if m.gpu_id == g then
        updatedMeta m node model location max_temp :: rest
      else m :: upsertMeta g node model location max_temp rest

/-- Source `DatabaseManager.insert_gpu_metadata`. -/
def insert_gpu_metadata (db : DB) (g : String)
    (node model location : Option String) (max_temp : Option Rat) : DB :=
  { db with metadata := upsertMeta g node model location max_temp db.metadata }

/-- Source `DatabaseManager.bulk_insert_events`: append all events, return the
inserted count. -/
def bulk_insert_events (db : DB) (evs : List Event) : DB × Nat :=
  ({ db with events := db.events ++ evs }, evs.length)

/-- The event record `_bulk_insert_data` builds from one cleaned row. -/
def eventOfRow (r : CleanRow) : Event :=
  { node := r.node
    gpu_id := r.gpu_id
    timestamp := r.timestamp
    temperature := r.temperature
    avg_temperature := r.avg_temperature
    issue_type := deriveIssueType r.reason
    reason := some r.reason
    date := r.date }

/-- Source `df[['gpu_id', 'node']].drop_duplicates()`: first occurrences, in order. -/
def dedupPairs (seen : List (String × String)) :
    List (String × String) → List (String × String)
  | [] => []
  | p :: rest =>
      if seen.contains p then dedupPairs seen rest
      else p :: dedupPairs (p :: seen) rest

/-- Source `_bulk_insert_data`: bulk-insert the event records, then upsert
metadata for each distinct `(gpu_id, node)` pair; a pair on which
`failMeta` holds models an upsert that raises — the exception is caught
and the loop continues. Returns the new state and the inserted count. -/
def bulkInsertData (failMeta : String × String → Bool) (db : DB)
    (rows : List CleanRow) : DB × Nat :=
  let events_data := rows.map eventOfRow
  if events_data.isEmpty then (db, 0)
  else
    let db1 := (bulk_insert_events db events_data).1
    let pairs := dedupPairs [] (rows.map (fun r => (r.gpu_id, r.node)))
    let db2 := pairs.foldl
      (fun d p =>
        if failMeta p then d
        else insert_gpu_metadata d p.1 (some p.2) none none none) db1
    (db2, (bulk_insert_events db events_data).2)

/-- Source `GPUDataProcessor.process_csv_file` on an already-parsed CSV: map
columns, clean, bulk-insert. An error propagates before any persistence,
so the state component is the untouched input database. -/
def process_csv_file (pT : String → Option Timestamp)
    (pF : String → Option Rat) (failMeta : String × String → Bool)
    (f : RawFrame) (db : DB) : Except IngestError Nat × DB :=
  match cleanData pT pF (mapColumns f) with
  | .error e => (.error e, db)
  | .ok rows =>
      (.ok (bulkInsertData failMeta db rows).2,
       (bulkInsertData failMeta db rows).1)

/-- The filters of `get_gpu_data`, conjoined onto the query.  An SQL
comparison with a NULL `issue_type` is not satisfied, hence
`e.issue_type == some s`. -/
def matchesFilters (sd ed : Option Timestamp) (g it nd : Option String)
    (e : Event) : Bool :=
  (match sd with | none => true | some t => decide (t ≤ e.timestamp)) &&
  (match ed with | none => true | some t => decide (e.timestamp ≤ t)) &&
  (match g with | none => true | some s => e.gpu_id == s) &&
  (match it with | none => true | some s => e.issue_type == some s) &&
  (match nd with | none => true | some s => e.node == s)

/-- Lookup in `gpu_metadata` by GPU identifier (unique in the schema). -/
def findMeta (ms : List GPUMetadata) (g : String) : Option GPUMetadata :=
  ms.find? (fun m => m.gpu_id == g)

/-- One dictionary of the `get_gpu_data` result list. -/
structure EventOut where
  node : String
  gpu_id : String
  timestamp : Timestamp
  temperature : Option Rat
  avg_temperature : Option Rat
  issue_type : Option String
  reason : Option String
  date : Option Timestamp
  model : Option String
  location : Option String
deriving DecidableEq

/-- The event part of a result dictionary. -/
def EventOut.eventPart (r : EventOut) : Event :=
  { node := r.node
    gpu_id := r.gpu_id
    timestamp := r.timestamp
    temperature := r.temperature
    avg_temperature := r.avg_temperature
    issue_type := r.issue_type
    reason := r.reason
    date := r.date }

/-- The left-join enrichment of one event with its metadata row. -/
def enrich (ms : List GPUMetadata) (e : Event) : EventOut :=
  let md := findMeta ms e.gpu_id
  { node := e.node
    gpu_id := e.gpu_id
    timestamp := e.timestamp
    temperature := e.temperature
    avg_temperature := e.avg_temperature
    issue_type := e.issue_type
    reason := e.reason
    date := e.date
    model := md.bind (fun m => m.model)
    location := md.bind (fun m => m.location) }

/-- Source `DatabaseManager.get_gpu_data`: conjunctive filters, order by
timestamp descending, outer join with `gpu_metadata`. -/
def get_gpu_data (db : DB) (sd ed : Option Timestamp)
    (g it nd : Option String) : List EventOut :=
  let filtered := db.events.filter (matchesFilters sd ed g it nd)
  let sorted := filtered.insertionSort (fun a b => b.timestamp ≤ a.timestamp)
  sorted.map (enrich db.metadata)

/-- The WHERE clause shared by all `get_summary_stats` queries. -/
def summaryFilter (sd ed : Option Timestamp) (e : Event) : Bool :=
  (match sd with | none => true | some t => decide (t ≤ e.timestamp)) &&
  (match ed with | none => true | some t => decide (e.timestamp ≤ t))

/-- The non-null temperature values of the filtered events: the multiset
SQL `AVG/MAX/MIN(temperature)` aggregate over. -/
def filteredTemps (db : DB) (sd ed : Option Timestamp) : List Rat :=
  (db.events.filter (summaryFilter sd ed)).filterMap (fun e => e.temperature)

/-- SQL `AVG` over the non-null values (NULL on the empty set). -/
def ratAvg (l : List Rat) : Option Rat :=
  if l.isEmpty then none else some (l.sum / l.length)

/-- SQL `MAX` over the non-null values (NULL on the empty set). -/
def listMax : List Rat → Option Rat
  | [] => none
  | x :: xs =>
      match listMax xs with
      | none => some x
      | some m => some (max x m)

/-- SQL `MIN` over the non-null values (NULL on the empty set). -/
def listMin : List Rat → Option Rat
  | [] => none
  | x :: xs =>
      match listMin xs with
      | none => some x
      | some m => some (min x m)

/-- Rendering `float(v) if v else None`: a NULL or zero aggregate renders as None. -/
def renderTemp : Option Rat → Option Rat
  | none => none
  | some q => if q == 0 then none else some q

/-- The `temperature_stats` record of `get_summary_stats`. -/
structure TempStats where
  average : Option Rat
  maximum : Option Rat
  minimum : Option Rat
deriving DecidableEq

/-- The temperature statistics of `DatabaseManager.get_summary_stats`. -/
def temperature_stats (db : DB) (sd ed : Option Timestamp) : TempStats :=
  let ts := filteredTemps db sd ed
  { average := renderTemp (ratAvg ts)
    maximum := renderTemp (listMax ts)
    minimum := renderTemp (listMin ts) }

/-- The bucket-width selection of `get_time_series_data`, in seconds:
`'hour'`, `'day'`, `'week'`, and the final `else` arm. -/
def bucketWidth (interval : String) : Nat :=
  if interval == "hour" then 3600
  else if interval == "day" then 86400
  else if interval == "week" then 604800
  else 86400

/-- TimescaleDB `time_bucket`: truncate the timestamp to the bucket. -/
def timeBucket (w : Nat) (t : Timestamp) : Timestamp :=
  t - t % (w : Int)

/-- The WHERE clause of `get_time_series_data`. -/
def tsFilter (g it nd : Option String) (e : Event) : Bool :=
  (match g with | none => true | some s => e.gpu_id == s) &&
  (match it with | none => true | some s => e.issue_type == some s) &&
  (match nd with | none => true | some s => e.node == s)

/-- One row of the `get_time_series_data` result. -/
structure TSRow where
  time_period : Timestamp
  event_count : Nat
  avg_temperature : Option Rat
  max_temperature : Option Rat
deriving DecidableEq

/-- First occurrences of a timestamp list, in order. -/
def dedupTimes (seen : List Timestamp) : List Timestamp → List Timestamp
  | [] => []
  | t :: rest =>
      if seen.contains t then dedupTimes seen rest
      else t :: dedupTimes (t :: seen) rest

/-- Source `DatabaseManager.get_time_series_data`: bucket the filtered events by
`time_bucket(bucket_width, timestamp)`, with per-bucket count, average
and maximum temperature (GROUP BY / ORDER BY the bucket). -/
def get_time_series_data (db : DB) (g it nd : Option String)
    (interval : String) : List TSRow :=
  let w := bucketWidth interval
  let evs := db.events.filter (tsFilter g it nd)
  let buckets :=
    (dedupTimes [] (evs.map (fun e => timeBucket w e.timestamp))).insertionSort
      (fun a b => a ≤ b)
  buckets.map (fun b =>
    let grp := evs.filter (fun e => timeBucket w e.timestamp == b)
    let temps := grp.filterMap (fun e => e.temperature)
    { time_period := b
      event_count := grp.length
      avg_temperature := renderTemp (ratAvg temps)
      max_temperature := renderTemp (listMax temps) })

/-- The spec's filter contract, transcribed from its words for the
refinement comparison with `matchesFilters`: start/end date are inclusive
bounds on timestamp, all filters are conjunctive, omitted filters impose
no constraint. -/
def specMatchesFilters (sd ed : Option Timestamp) (g it nd : Option String)
    (e : Event) : Prop :=
  (∀ t, sd = some t → t ≤ e.timestamp) ∧
  (∀ t, ed = some t → e.timestamp ≤ t) ∧
  (∀ s, g = some s → e.gpu_id = s) ∧
  (∀ s, it = some s → e.issue_type = some s) ∧
  (∀ s, nd = some s → e.node = s)

/-! Concrete fixtures for witnesses and counterexamples. -/

/-- A date-time parser for concrete runs (only the fixture's dates). -/
def wParseT (s : String) : Option Timestamp :=
  if s = "2025-03-17" then some 100 else none

/-- A float parser for concrete runs (only the fixture's readings). -/
def wParseF (s : String) : Option Rat :=
  if s = "44.0" then some 44 else none

def emptyDB : DB := { events := [], metadata := [] }

/-- A one-row CSV using the `temp` alias, a mixed-case reason and no
average-temperature or date column. -/
def wFrame : RawFrame :=
  { header := ["node", "timestamp", "gpu_id", "temp", "reason"]
    rows := [["10.4.21.8", "2025-03-17", "GPU_28", "44.0", "Thermally Failed"]] }

/-- The event `wFrame` ingests into. -/
def wEvent : Event :=
  { node := "10.4.21.8"
    gpu_id := "GPU_28"
    timestamp := 100
    temperature := some 44
    avg_temperature := none
    issue_type := some "failed"
    reason := some "failed"
    date := none }

/-- The metadata record `wFrame`'s ingestion upserts. -/
def wMeta : GPUMetadata :=
  { gpu_id := "GPU_28"
    node := some "10.4.21.8"
    model := none
    location := none
    max_temp := none }

/-- A CSV whose header lacks any alias of `gpu_id` and of `reason`. -/
def c3Frame : RawFrame :=
  { header := ["node", "timestamp"]
    rows := [["10.4.21.8", "2025-03-17"]] }

/-- An existing metadata record with a non-null model. -/
def c2meta : GPUMetadata :=
  { gpu_id := "GPU_1"
    node := none
    model := some "H100"
    location := none
    max_temp := none }

def c2db : DB := { events := [], metadata := [c2meta] }

/-- A mapped row with a mixed-case, trailing-whitespace reason. -/
def c4Row : MappedRow :=
  { node := "n1"
    gpu_id := "g1"
    timestamp := "2025-03-17"
    temperature := none
    avg_temperature := none
    reason := "THERMALLY FAILED  "
    date := none }

/-- A mapped row whose timestamp does not parse. -/
def c5RowBadTs : MappedRow :=
  { node := "n1"
    gpu_id := "g1"
    timestamp := "not-a-date"
    temperature := none
    avg_temperature := none
    reason := "Throttled"
    date := none }

/-- A mapped row whose temperature does not parse but whose timestamp does. -/
def c5RowBadTemp : MappedRow :=
  { node := "n1"
    gpu_id := "g1"
    timestamp := "2025-03-17"
    temperature := some "oops"
    avg_temperature := none
    reason := "Throttled"
    date := none }

/-- An event carrying the temperature reading zero. -/
def c8Event : Event :=
  { node := "n1"
    gpu_id := "g1"
    timestamp := 50
    temperature := some 0
    avg_temperature := none
    issue_type := some "throttled"
    reason := some "throttled"
    date := none }

def c8db : DB := { events := [c8Event], metadata := [] }

/-- Two events with temperatures 5 and 3. -/
def c8wEvent1 : Event :=
  { node := "n1"
    gpu_id := "g1"
    timestamp := 50
    temperature := some 5
    avg_temperature := none
    issue_type := some "throttled"
    reason := some "throttled"
    date := none }

def c8wEvent2 : Event :=
  { node := "n2"
    gpu_id := "g2"
    timestamp := 60
    temperature := some 3
    avg_temperature := none
    issue_type := some "failed"
    reason := some "failed"
    date := none }

def c8wdb : DB := { events := [c8wEvent1, c8wEvent2], metadata := [] }

/-- A database with two events (one GPU carrying metadata, one not). -/
def c7db : DB :=
  { events := [c8wEvent1, c8wEvent2]
    metadata := [{ gpu_id := "g1"
                   node := some "n1"
                   model := some "H100"
                   location := some "row-3"
                   max_temp := none }] }

/-- A cleaned row for concrete runs. -/
def c9Row : CleanRow :=
  { node := "n1"
    gpu_id := "g1"
    timestamp := 100
    temperature := none
    avg_temperature := none
    reason := "throttled"
    date := none }

/-- A second cleaned row on another GPU. -/
def c9Row2 : CleanRow :=
  { node := "n2"
    gpu_id := "g2"
    timestamp := 200
    temperature := none
    avg_temperature := none
    reason := "failed"
    date := none }

/-- A metadata-upsert failure model that fails exactly on `g1`. -/
def c9Fail (p : String × String) : Bool := p.1 == "g1"

/-- The cleaned row `c4Row` cleans to. -/
def c4Clean : CleanRow :=
  { node := "n1"
    gpu_id := "g1"
    timestamp := 100
    temperature := none
    avg_temperature := none
    reason := "failed"
    date := none }

/-! Helper lemmas. -/

theorem eventPart_enrich (ms : List GPUMetadata) (e : Event) :
    (enrich ms e).eventPart = e := rfl

theorem cleanRow_reason {pT : String → Option Timestamp}
    {pF : String → Option Rat} {mr : MappedRow} {r : CleanRow}
    (h : cleanRow pT pF mr = some r) :
    r.reason = normalizeReason mr.reason ∧
    (r.reason = "throttled" ∨ r.reason = "failed") := by
  unfold cleanRow at h
  split at h
  · exact absurd h (by simp)
  · split at h
    · injection h with h
      subst h
      refine ⟨rfl, ?_⟩
      rename_i hv
      simpa [valid_reasons] using hv
    · exact absurd h (by simp)

/-- C4: every row's reason is first trimmed and lower-cased, then mapped
through the synonym table (`thermally failed`/`thermal failure` to
`failed`; `throttled`/`thermal throttling`/`throttling` to `throttled`);
a row whose mapped reason is not exactly `throttled` or `failed` is
silently excluded, and a row with reason `"THERMALLY FAILED  "` is
classified `failed` and kept. -/
theorem reason_normalization_spec (pT : String → Option Timestamp)
    (pF : String → Option Rat) (mr : MappedRow) (ts : Timestamp)
    (hts : pT mr.timestamp = some ts) :
    normalizeReason mr.reason = mapReason (strLower (strTrim mr.reason)) ∧
    (mapReason "thermally failed" = "failed" ∧
     mapReason "thermal failure" = "failed" ∧
     mapReason "throttled" = "throttled" ∧
     mapReason "thermal throttling" = "throttled" ∧
     mapReason "throttling" = "throttled") ∧
    (valid_reasons.contains (normalizeReason mr.reason) = false →
      cleanRow pT pF mr = none) ∧
    (valid_reasons.contains (normalizeReason mr.reason) = true →
      ∃ r, cleanRow pT pF mr = some r ∧ r.reason = normalizeReason mr.reason) ∧
    (mr.reason = "THERMALLY FAILED  " →
      ∃ r, cleanRow pT pF mr = some r ∧ r.reason = "failed") := by
  have hneg : valid_reasons.contains (normalizeReason mr.reason) = false →
      cleanRow pT pF mr = none := by
    intro hv
    simp only [cleanRow, hts]
    exact if_neg (fun hc => Bool.false_ne_true (hv ▸ hc))
  have hpos : valid_reasons.contains (normalizeReason mr.reason) = true →
      ∃ r, cleanRow pT pF mr = some r ∧ r.reason = normalizeReason mr.reason := by
    intro hv
    refine ⟨cleanedRow pT pF mr ts, ?_, rfl⟩
    simp only [cleanRow, hts]
    rw [if_pos hv]
  refine ⟨rfl, by decide, hneg, hpos, ?_⟩
  intro hr
  have hv : valid_reasons.contains (normalizeReason mr.reason) = true := by
    rw [hr]; decide
  obtain ⟨r, hcr, hrr⟩ := hpos hv
  exact ⟨r, hcr, by rw [hrr, hr]; decide⟩

/-- C4 witness: the concrete row with reason `"THERMALLY FAILED  "`. -/
theorem reason_normalization_spec_witness :
    ∃ r, cleanRow wParseT wParseF c4Row = some r ∧ r.reason = "failed" :=
  (reason_normalization_spec wParseT wParseF c4Row 100 rfl).2.2.2.2 rfl

/-- C5: a row whose timestamp fails to parse is silently dropped (the
clean step returns a shorter list, never an error), while a temperature
or average-temperature value that fails to parse becomes null with the
row kept. -/
theorem type_coercion_spec (pT : String → Option Timestamp)
    (pF : String → Option Rat) (mr : MappedRow) :
    (pT mr.timestamp = none → cleanRow pT pF mr = none) ∧
    (∀ ts c, pT mr.timestamp = some ts → mr.temperature = some c →
      pF c = none →
      valid_reasons.contains (normalizeReason mr.reason) = true →
      ∃ r, cleanRow pT pF mr = some r ∧ r.temperature = none) ∧
    (∀ ts c, pT mr.timestamp = some ts → mr.avg_temperature = some c →
      pF c = none →
      valid_reasons.contains (normalizeReason mr.reason) = true →
      ∃ r, cleanRow pT pF mr = some r ∧ r.avg_temperature = none) ∧
    (∀ mf, missingColumns mf = [] →
      cleanData pT pF mf = .ok ((frameRows mf).filterMap (cleanRow pT pF)) ∧
      ((frameRows mf).filterMap (cleanRow pT pF)).length ≤
        (frameRows mf).length) := by
  refine ⟨?_, ?_, ?_, ?_⟩
  · intro hts
    simp only [cleanRow, hts]
  · intro ts c hts hc hpf hv
    refine ⟨cleanedRow pT pF mr ts, ?_, ?_⟩
    · simp only [cleanRow, hts]
      rw [if_pos hv]
    · simp [cleanedRow, hc, hpf]
  · intro ts c hts hc hpf hv
    refine ⟨cleanedRow pT pF mr ts, ?_, ?_⟩
    · simp only [cleanRow, hts]
      rw [if_pos hv]
    · simp [cleanedRow, hc, hpf]
  · intro mf hm
    constructor
    · unfold cleanData
      simp [hm]
    · exact List.length_filterMap_le _ _

/-- C5 witness: the row with timestamp `"not-a-date"` is dropped, the
row with temperature `"oops"` is kept with a null temperature. -/
theorem type_coercion_spec_witness :
    cleanRow wParseT wParseF c5RowBadTs = none ∧
    ∃ r, cleanRow wParseT wParseF c5RowBadTemp = some r ∧
      r.temperature = none := by
  constructor
  · exact (type_coercion_spec wParseT wParseF c5RowBadTs).1 rfl
  · exact (type_coercion_spec wParseT wParseF c5RowBadTemp).2.1 100 "oops"
      rfl rfl rfl (by decide)

/-- C6: for every row surviving the cleaning filter, the issue type
re-derived at persistence time by substring matching equals the cleaned
reason, and both are stored on the event record. -/
theorem issue_type_rederivation_agrees (pT : String → Option Timestamp)
    (pF : String → Option Rat) (mr : MappedRow) (r : CleanRow)
    (h : cleanRow pT pF mr = some r) :
    deriveIssueType r.reason = some r.reason ∧
    (eventOfRow r).issue_type = some r.reason ∧
    (eventOfRow r).reason = some r.reason := by
  obtain ⟨-, hr⟩ := cleanRow_reason h
  have hd : deriveIssueType r.reason = some r.reason := by
    rcases hr with h1 | h1 <;> rw [h1] <;> decide
  exact ⟨hd, hd, rfl⟩

/-- C6 witness: the two derivations agree on the concrete cleaned row. -/
theorem issue_type_rederivation_agrees_witness :
    deriveIssueType c4Clean.reason = some c4Clean.reason ∧
    (eventOfRow c4Clean).issue_type = some c4Clean.reason ∧
    (eventOfRow c4Clean).reason = some c4Clean.reason :=
  issue_type_rederivation_agrees wParseT wParseF c4Row c4Clean rfl

/-- C10: for every interval string other than `hour` and `week` —
`day` itself, but also any unrecognized value — `get_time_series_data`
uses the one-day bucket width and behaves exactly like
`interval = 'day'` (the total model raises no error). -/
theorem time_series_invalid_interval_defaults_to_day (db : DB)
    (g it nd : Option String) (interval : String)
    (h1 : interval ≠ "hour") (h2 : interval ≠ "week") :
    get_time_series_data db g it nd interval =
      get_time_series_data db g it nd "day" := by
  have hw : bucketWidth interval = 86400 := by
    unfold bucketWidth
    rcases eq_or_ne interval "day" with h | h <;> simp [h1, h2, h]
  have hd : bucketWidth "day" = 86400 := rfl
  unfold get_time_series_data
  rw [hw, hd]

/-- C10 witness: `interval = "month"` behaves like `interval = "day"`. -/
theorem time_series_invalid_interval_defaults_to_day_witness :
    get_time_series_data c7db none none none "month" =
      get_time_series_data c7db none none none "day" :=
  time_series_invalid_interval_defaults_to_day c7db none none none "month"
    (by decide) (by decide)

/-- C3: whenever one of the four required fields is absent after
column-alias mapping, ingestion fails with a missing-required-columns
error naming exactly the missing fields, and the database is unchanged
(zero events, zero metadata persisted). -/
theorem missing_required_columns_error (pT : String → Option Timestamp)
    (pF : String → Option Rat) (failMeta : String × String → Bool)
    (f : RawFrame) (db : DB)
    (h : missingColumns (mapColumns f) ≠ []) :
    process_csv_file pT pF failMeta f db =
      (.error (.missingColumns (missingColumns (mapColumns f))), db) ∧
    ∀ c, c ∈ missingColumns (mapColumns f) ↔
      (c ∈ required_columns ∧ hasCol (mapColumns f) c = false) := by
  constructor
  · unfold process_csv_file cleanData
    simp [List.isEmpty_iff, h]
  · intro c
    simp [missingColumns, List.mem_filter]

/-- C3 witness: a CSV with only `node` and `timestamp` columns fails
naming `gpu_id` and `reason`, leaving the database empty. -/
theorem missing_required_columns_error_witness :
    process_csv_file wParseT wParseF (fun _ => false) c3Frame emptyDB =
      (.error (.missingColumns (missingColumns (mapColumns c3Frame))),
        emptyDB) ∧
    ∀ c, c ∈ missingColumns (mapColumns c3Frame) ↔
      (c ∈ required_columns ∧ hasCol (mapColumns c3Frame) c = false) :=
  missing_required_columns_error wParseT wParseF (fun _ => false) c3Frame
    emptyDB (by decide)

/-- C2 counterexample: the upsert receives the non-null model `some ""`
for a GPU whose stored model is `some "H100"`, yet the stored value is
left unchanged — a non-null new value is not always written, because the
code tests Python truthiness, not nullity. -/
theorem insert_gpu_metadata_nonnull_overwrite_refuted :
    (some "" : Option String) ≠ none ∧
    (insert_gpu_metadata c2db "GPU_1" none (some "") none none).metadata =
      [c2meta] ∧
    c2meta.model = some "H100" := ⟨by simp, rfl, rfl⟩

/-- C8 counterexample: one filtered event with the non-null temperature
`0`; the SQL aggregates are all `0`, but the rendered statistics are all
null because the code tests Python truthiness on the aggregate. -/
theorem temperature_stats_zero_rendered_null :
    filteredTemps c8db none none = [0] ∧
    listMin (filteredTemps c8db none none) = some 0 ∧
    listMax (filteredTemps c8db none none) = some 0 ∧
    ratAvg (filteredTemps c8db none none) = some 0 ∧
    temperature_stats c8db none none =
      { average := none, maximum := none, minimum := none } := by
  have hft : filteredTemps c8db none none = [0] := rfl
  have havg : ratAvg (filteredTemps c8db none none) = some 0 := by
    rw [hft]
    simp [ratAvg]
  have hmax : listMax (filteredTemps c8db none none) = some 0 := rfl
  have hmin : listMin (filteredTemps c8db none none) = some 0 := rfl
  refine ⟨hft, hmin, hmax, havg, ?_⟩
  simp only [temperature_stats]
  rw [havg, hmax, hmin]
  simp [renderTemp]

theorem findMeta_nil (g : String) : findMeta [] g = none := rfl

theorem findMeta_cons (m0 : GPUMetadata) (rest : List GPUMetadata)
    (g : String) :
    findMeta (m0 :: rest) g =
      if m0.gpu_id == g then some m0 else findMeta rest g := by
  unfold findMeta
  cases h : m0.gpu_id == g <;> simp [List.find?_cons, h]

theorem findMeta_upsertMeta_self (g : String) (n m l : Option String)
    (t : Option Rat) :
    ∀ ms : List GPUMetadata,
      findMeta (upsertMeta g n m l t ms) g =
        some (match findMeta ms g with
          | some old => updatedMeta old n m l t
          | none => { gpu_id := g, node := n, model := m, location := l,
                      max_temp := t })
  | [] => by simp [upsertMeta, findMeta_nil, findMeta_cons]
  | m0 :: rest => by
      cases hm : m0.gpu_id == g with
      | true =>
          have hg : ((updatedMeta m0 n m l t).gpu_id == g) = true := hm
          simp [upsertMeta, findMeta_cons, hm, hg]
      | false =>
          simp [upsertMeta, findMeta_cons, hm,
            findMeta_upsertMeta_self g n m l t rest]

theorem findMeta_upsertMeta_other (g g' : String) (hne : g' ≠ g)
    (n m l : Option String) (t : Option Rat) :
    ∀ ms : List GPUMetadata,
      findMeta (upsertMeta g n m l t ms) g' = findMeta ms g'
  | [] => by
      simp [upsertMeta, findMeta_nil, findMeta_cons, Ne.symm hne]
  | m0 :: rest => by
      cases hm : m0.gpu_id == g with
      | true =>
          have hg : m0.gpu_id = g := by simpa using hm
          have h2 : (m0.gpu_id == g') = false := by
            simp [hg, Ne.symm hne]
          have h3 : ((updatedMeta m0 n m l t).gpu_id == g') = false := h2
          simp [upsertMeta, findMeta_cons, hm, h2, h3]
      | false =>
          cases hg' : m0.gpu_id == g' with
          | true => simp [upsertMeta, findMeta_cons, hm, hg']
          | false =>
              simp [upsertMeta, findMeta_cons, hm, hg',
                findMeta_upsertMeta_other g g' hne n m l t rest]

theorem upsertMeta_gpuIds (g : String) (n m l : Option String)
    (t : Option Rat) :
    ∀ ms : List GPUMetadata,
      (upsertMeta g n m l t ms).map (fun x => x.gpu_id) =
        (if (findMeta ms g).isSome then ms.map (fun x => x.gpu_id)
         else ms.map (fun x => x.gpu_id) ++ [g])
  | [] => by simp [upsertMeta, findMeta_nil]
  | m0 :: rest => by
      cases hm : m0.gpu_id == g with
      | true => simp [upsertMeta, findMeta_cons, hm, updatedMeta]
      | false =>
          by_cases hs : (findMeta rest g).isSome = true <;>
            simp [upsertMeta, findMeta_cons, hm, hs,
              upsertMeta_gpuIds g n m l t rest]

theorem findMeta_eq_none_iff (ms : List GPUMetadata) (g : String) :
    findMeta ms g = none ↔ ∀ x ∈ ms, x.gpu_id ≠ g := by
  unfold findMeta
  rw [List.find?_eq_none]
  simp

theorem upsertMeta_nodup (g : String) (n m l : Option String)
    (t : Option Rat) (ms : List GPUMetadata)
    (h : (ms.map (fun x => x.gpu_id)).Nodup) :
    ((upsertMeta g n m l t ms).map (fun x => x.gpu_id)).Nodup := by
  rw [upsertMeta_gpuIds]
  split
  · exact h
  · rename_i hn
    have hnone : findMeta ms g = none := by
      cases hf : findMeta ms g with
      | none => rfl
      | some v => rw [hf] at hn; exact absurd rfl hn
    have hg : g ∉ ms.map (fun x => x.gpu_id) := by
      intro hmem
      obtain ⟨x, hx, hxe⟩ := List.mem_map.mp hmem
      exact (findMeta_eq_none_iff ms g).mp hnone x hx hxe
    simp [List.nodup_append, h, hg]

theorem mem_gpuIds_upsertMeta_self (g : String) (n m l : Option String)
    (t : Option Rat) (ms : List GPUMetadata) :
    g ∈ (upsertMeta g n m l t ms).map (fun x => x.gpu_id) := by
  rw [upsertMeta_gpuIds]
  split
  · rename_i hs
    cases hf : findMeta ms g with
    | none => rw [hf] at hs; exact absurd hs (by simp)
    | some old =>
        have hf' : ms.find? (fun x => x.gpu_id == g) = some old := hf
        have h1 : (old.gpu_id == g) = true :=
          @List.find?_some GPUMetadata (fun x => x.gpu_id == g) old ms hf'
        have h2 : old ∈ ms := List.mem_of_find?_eq_some hf'
        exact List.mem_map.mpr ⟨old, h2, by simpa using h1⟩
  · simp

theorem mem_gpuIds_upsertMeta_mono (g g' : String) (n m l : Option String)
    (t : Option Rat) (ms : List GPUMetadata)
    (h : g' ∈ ms.map (fun x => x.gpu_id)) :
    g' ∈ (upsertMeta g n m l t ms).map (fun x => x.gpu_id) := by
  rw [upsertMeta_gpuIds]
  split
  · exact h
  · exact List.mem_append_left _ h

/-- C2 (amended): the upsert keyed by GPU identifier keeps at most one
metadata record per identifier; on update each optional field is
overwritten exactly when the newly supplied value is truthy (non-null and
non-empty / non-zero), a falsy value leaving the stored value unchanged;
other identifiers are untouched; and after two upserts for the same new
GPU identifier, the stored model is the (truthy) one from the later
call while a location supplied only by the earlier call survives. -/
theorem insert_gpu_metadata_upsert_spec (db : DB) (g : String)
    (n m l : Option String) (t : Option Rat)
    (hnd : (db.metadata.map (fun x => x.gpu_id)).Nodup) :
    (((insert_gpu_metadata db g n m l t).metadata.map
        (fun x => x.gpu_id)).Nodup) ∧
    (∀ old, findMeta db.metadata g = some old →
      findMeta (insert_gpu_metadata db g n m l t).metadata g =
        some (updatedMeta old n m l t)) ∧
    (findMeta db.metadata g = none →
      findMeta (insert_gpu_metadata db g n m l t).metadata g =
        some { gpu_id := g, node := n, model := m, location := l,
               max_temp := t }) ∧
    (∀ g2, g2 ≠ g →
      findMeta (insert_gpu_metadata db g n m l t).metadata g2 =
        findMeta db.metadata g2) ∧
    (findMeta db.metadata g = none →
      ∀ m1 l1 m2, truthyStr m2 = true →
        findMeta (insert_gpu_metadata
            (insert_gpu_metadata db g none m1 l1 none)
            g none m2 none none).metadata g =
          some { gpu_id := g, node := none, model := m2, location := l1,
                 max_temp := none }) := by
  refine ⟨upsertMeta_nodup g n m l t db.metadata hnd, ?_, ?_, ?_, ?_⟩
  · intro old hold
    have h := findMeta_upsertMeta_self g n m l t db.metadata
    rw [hold] at h
    exact h
  · intro hnone
    have h := findMeta_upsertMeta_self g n m l t db.metadata
    rw [hnone] at h
    exact h
  · intro g2 hne
    exact findMeta_upsertMeta_other g g2 hne n m l t db.metadata
  · intro hnone m1 l1 m2 ht
    have h1 := findMeta_upsertMeta_self g none m1 l1 none db.metadata
    rw [hnone] at h1
    have h2 := findMeta_upsertMeta_self g none m2 none none
      (insert_gpu_metadata db g none m1 l1 none).metadata
    rw [show (insert_gpu_metadata db g none m1 l1 none).metadata =
        upsertMeta g none m1 l1 none db.metadata from rfl] at h2
    rw [h1] at h2
    rw [show (insert_gpu_metadata (insert_gpu_metadata db g none m1 l1 none)
        g none m2 none none).metadata =
        upsertMeta g none m2 none none
          (upsertMeta g none m1 l1 none db.metadata) from rfl]
    rw [h2]
    have h3 : truthyStr none = false := rfl
    have h4 : truthyRat none = false := rfl
    simp [updatedMeta, updStr, updRat, ht, h3, h4]

/-- C2 witness: a fresh GPU upserted twice — the later truthy model wins
and the earlier location survives the later call omitting it. -/
theorem insert_gpu_metadata_upsert_spec_witness :
    findMeta (insert_gpu_metadata
        (insert_gpu_metadata c2db "GPU_9" none (some "A100") (some "rack-7")
          none)
        "GPU_9" none (some "H200") none none).metadata "GPU_9" =
      some { gpu_id := "GPU_9", node := none, model := some "H200",
             location := some "rack-7", max_temp := none } :=
  (insert_gpu_metadata_upsert_spec c2db "GPU_9" none none none none
      (by decide)).2.2.2.2 rfl (some "A100") (some "rack-7") (some "H200")
    rfl

theorem bulkInsertData_count (fm : String × String → Bool) (db : DB)
    (rows : List CleanRow) :
    (bulkInsertData fm db rows).2 = rows.length := by
  cases rows with
  | nil => rfl
  | cons r rs => simp [bulkInsertData, bulk_insert_events]

theorem foldl_upsert_events (fm : String × String → Bool) :
    ∀ (pairs : List (String × String)) (d : DB),
      (pairs.foldl (fun d p => if fm p then d
        else insert_gpu_metadata d p.1 (some p.2) none none none) d).events =
        d.events
  | [], d => rfl
  | p :: rest, d => by
      simp only [List.foldl_cons]
      by_cases hf : fm p = true
      · rw [if_pos hf]
        exact foldl_upsert_events fm rest d
      · rw [if_neg (by simp [hf])]
        rw [foldl_upsert_events fm rest _]
        rfl

theorem bulkInsertData_events (fm : String × String → Bool) (db : DB)
    (rows : List CleanRow) :
    (bulkInsertData fm db rows).1.events = db.events ++ rows.map eventOfRow := by
  cases rows with
  | nil => simp [bulkInsertData]
  | cons r rs =>
      simp only [bulkInsertData, List.map_cons, List.isEmpty_cons,
        Bool.false_eq_true, if_false]
      rw [foldl_upsert_events]
      rfl

theorem bulkInsertData_metadata (fm : String × String → Bool) (db : DB)
    (rows : List CleanRow) (hr : rows ≠ []) :
    (bulkInsertData fm db rows).1.metadata =
      (((dedupPairs [] (rows.map (fun r => (r.gpu_id, r.node)))).foldl
        (fun d p => if fm p then d
          else insert_gpu_metadata d p.1 (some p.2) none none none)
        (bulk_insert_events db (rows.map eventOfRow)).1)).metadata := by
  cases rows with
  | nil => exact absurd rfl hr
  | cons r rs => rfl

theorem foldl_upsert_mem_mono (fm : String × String → Bool) (g' : String) :
    ∀ (pairs : List (String × String)) (d : DB),
      g' ∈ d.metadata.map (fun x => x.gpu_id) →
      g' ∈ ((pairs.foldl (fun d p => if fm p then d
        else insert_gpu_metadata d p.1 (some p.2) none none none)
          d).metadata.map (fun x => x.gpu_id))
  | [], d, h => h
  | p :: rest, d, h => by
      simp only [List.foldl_cons]
      by_cases hf : fm p = true
      · rw [if_pos hf]
        exact foldl_upsert_mem_mono fm g' rest d h
      · rw [if_neg (by simp [hf])]
        exact foldl_upsert_mem_mono fm g' rest _
          (mem_gpuIds_upsertMeta_mono p.1 g' (some p.2) none none none
            d.metadata h)

theorem foldl_upsert_mem (fm : String × String → Bool) :
    ∀ (pairs : List (String × String)) (d : DB) (p : String × String),
      p ∈ pairs → fm p = false →
      p.1 ∈ ((pairs.foldl (fun d p => if fm p then d
        else insert_gpu_metadata d p.1 (some p.2) none none none)
          d).metadata.map (fun x => x.gpu_id))
  | [], _, p, hp, _ => absurd hp (by simp)
  | q :: rest, d, p, hp, hf => by
      simp only [List.foldl_cons]
      rcases List.mem_cons.mp hp with he | hm
      · subst he
        rw [if_neg (by simp [hf])]
        exact foldl_upsert_mem_mono fm p.1 rest _
          (mem_gpuIds_upsertMeta_self p.1 (some p.2) none none none
            d.metadata)
      · by_cases hq : fm q = true
        · rw [if_pos hq]
          exact foldl_upsert_mem fm rest d p hm hf
        · rw [if_neg (by simp [hq])]
          exact foldl_upsert_mem fm rest _ p hm hf

/-- C9: a failure upserting one GPU's metadata is skipped, never aborts:
the returned count is still the full persisted-event count, the events
table is exactly what a failure-free run produces, `process_csv_file`
returns the same outcome as a failure-free run, and the metadata upsert
of every non-failing `(gpu_id, node)` pair still lands. -/
theorem metadata_failure_never_aborts (failMeta : String × String → Bool)
    (pT : String → Option Timestamp) (pF : String → Option Rat)
    (f : RawFrame) (db : DB) (rows : List CleanRow) :
    (bulkInsertData failMeta db rows).2 = rows.length ∧
    (bulkInsertData failMeta db rows).1.events =
      (bulkInsertData (fun _ => false) db rows).1.events ∧
    (process_csv_file pT pF failMeta f db).1 =
      (process_csv_file pT pF (fun _ => false) f db).1 ∧
    (∀ p ∈ dedupPairs [] (rows.map (fun r => (r.gpu_id, r.node))),
      failMeta p = false →
      p.1 ∈ ((bulkInsertData failMeta db rows).1.metadata.map
        (fun x => x.gpu_id))) := by
  refine ⟨bulkInsertData_count failMeta db rows, ?_, ?_, ?_⟩
  · rw [bulkInsertData_events, bulkInsertData_events]
  · unfold process_csv_file
    cases hcd : cleanData pT pF (mapColumns f) with
    | error e => rfl
    | ok rows2 =>
        show Except.ok (bulkInsertData failMeta db rows2).2 =
          Except.ok (bulkInsertData (fun _ => false) db rows2).2
        rw [bulkInsertData_count, bulkInsertData_count]
  · intro p hp hf
    have hr : rows ≠ [] := by
      intro he
      subst he
      simp [dedupPairs] at hp
    rw [bulkInsertData_metadata failMeta db rows hr]
    exact foldl_upsert_mem failMeta _ _ p hp hf

/-- C9 witness: with the upsert for `g1` failing, the count and events
are those of a failure-free run and `g2`'s metadata still lands. -/
theorem metadata_failure_never_aborts_witness :
    (bulkInsertData c9Fail emptyDB [c9Row, c9Row2]).2 = 2 ∧
    (bulkInsertData c9Fail emptyDB [c9Row, c9Row2]).1.events =
      (bulkInsertData (fun _ => false) emptyDB [c9Row, c9Row2]).1.events ∧
    "g2" ∈ ((bulkInsertData c9Fail emptyDB [c9Row, c9Row2]).1.metadata.map
      (fun x => x.gpu_id)) := by
  have h := metadata_failure_never_aborts c9Fail wParseT wParseF wFrame
    emptyDB [c9Row, c9Row2]
  exact ⟨h.1, h.2.1, h.2.2.2 ("g2", "n2") (by decide) rfl⟩

theorem selectCol_length {f : RawFrame} {field : String} {c : List String}
    (h : selectCol f field = some c) : c.length = f.rows.length := by
  unfold selectCol at h
  cases hf : (aliasesFor field).find? (fun a => f.header.contains a) with
  | none => rw [hf] at h; exact absurd h (by simp)
  | some a =>
      rw [hf] at h
      rw [Option.map_some'] at h
      injection h with h
      subst h
      have ha : f.header.contains a = true := List.find?_some hf
      unfold colValues
      cases hi : f.header.findIdx? (fun h2 => h2 == a) with
      | none =>
          rw [List.findIdx?_eq_none_iff] at hi
          have hmem : a ∈ f.header := List.mem_of_elem_eq_true ha
          have := hi a hmem
          simp at this
      | some i => simp

theorem frameRows_mapColumns_length_le (f : RawFrame) :
    (frameRows (mapColumns f)).length ≤ f.rows.length := by
  unfold frameRows
  split
  · rename_i ns gs ts rs hn hg ht hr
    rw [List.length_map, List.length_range]
    exact le_of_eq (selectCol_length hn)
  · simp

/-- C1: whenever ingestion succeeds, the returned count is at most the
source file's row count, the persisted events are exactly the appended
block, and every one of them carries issue classification `throttled`
or `failed`. -/
theorem process_csv_ok_count_le_and_issue_classified
    (pT : String → Option Timestamp) (pF : String → Option Rat)
    (failMeta : String × String → Bool) (f : RawFrame) (db : DB)
    (n : Nat) (db2 : DB)
    (h : process_csv_file pT pF failMeta f db = (.ok n, db2)) :
    n ≤ f.rows.length ∧
    ∃ new, db2.events = db.events ++ new ∧ n = new.length ∧
      ∀ e ∈ new, e.issue_type = some "throttled" ∨
        e.issue_type = some "failed" := by
  unfold process_csv_file at h
  cases hcd : cleanData pT pF (mapColumns f) with
  | error e =>
      rw [hcd] at h
      exact absurd (congrArg Prod.fst h) (by simp)
  | ok rows =>
      rw [hcd] at h
      simp only [Prod.mk.injEq] at h
      obtain ⟨h1, h2⟩ := h
      injection h1 with h1
      rw [bulkInsertData_count] at h1
      subst h1
      subst h2
      have hclean : rows =
          (frameRows (mapColumns f)).filterMap (cleanRow pT pF) := by
        unfold cleanData at hcd
        split at hcd
        · injection hcd with hcd
          exact hcd.symm
        · exact absurd hcd (by simp)
      constructor
      · calc rows.length ≤ (frameRows (mapColumns f)).length := by
              rw [hclean]
              exact List.length_filterMap_le _ _
          _ ≤ f.rows.length := frameRows_mapColumns_length_le f
      · refine ⟨rows.map eventOfRow, bulkInsertData_events _ _ _, ?_, ?_⟩
        · rw [List.length_map]
        · intro e he
          obtain ⟨r, hr, hre⟩ := List.mem_map.mp he
          rw [hclean] at hr
          obtain ⟨mr, hmr, hcr⟩ := List.mem_filterMap.mp hr
          obtain ⟨-, hv⟩ := cleanRow_reason hcr
          subst hre
          rcases hv with h1 | h1
          · left
            show deriveIssueType r.reason = some "throttled"
            rw [h1]
            decide
          · right
            show deriveIssueType r.reason = some "failed"
            rw [h1]
            decide

/-- C1 witness: the concrete one-row CSV ingests with count 1 and a
`failed` classification. -/
theorem process_csv_ok_count_le_and_issue_classified_witness :
    1 ≤ wFrame.rows.length ∧
    ∃ new, ({ events := [wEvent], metadata := [wMeta] } : DB).events =
        emptyDB.events ++ new ∧ 1 = new.length ∧
      ∀ e ∈ new, e.issue_type = some "throttled" ∨
        e.issue_type = some "failed" :=
  process_csv_ok_count_le_and_issue_classified wParseT wParseF
    (fun _ => false) wFrame emptyDB 1
    { events := [wEvent], metadata := [wMeta] } rfl

theorem listMax_eq_none_iff (l : List Rat) : listMax l = none ↔ l = [] := by
  cases l with
  | nil => simp [listMax]
  | cons x xs =>
      simp only [listMax]
      cases listMax xs <;> simp

theorem listMin_eq_none_iff (l : List Rat) : listMin l = none ↔ l = [] := by
  cases l with
  | nil => simp [listMin]
  | cons x xs =>
      simp only [listMin]
      cases listMin xs <;> simp

theorem listMax_spec : ∀ (l : List Rat) (m : Rat), listMax l = some m →
    m ∈ l ∧ ∀ x ∈ l, x ≤ m
  | [], m, h => absurd h (by simp [listMax])
  | x :: xs, m, h => by
      rw [show listMax (x :: xs) = (match listMax xs with
        | none => some x
        | some m2 => some (max x m2)) from rfl] at h
      cases hx : listMax xs with
      | none =>
          rw [hx] at h
          injection h with h
          subst h
          have hnil : xs = [] := (listMax_eq_none_iff xs).mp hx
          subst hnil
          exact ⟨by simp, by simp⟩
      | some m2 =>
          rw [hx] at h
          injection h with h
          subst h
          obtain ⟨hmem, hle⟩ := listMax_spec xs m2 hx
          constructor
          · rcases max_choice x m2 with hc | hc
            · rw [hc]; exact List.mem_cons_self x xs
            · rw [hc]; exact List.mem_cons_of_mem x hmem
          · intro y hy
            rcases List.mem_cons.mp hy with he | hm2
            · rw [he]; exact le_max_left x m2
            · exact le_trans (hle y hm2) (le_max_right x m2)

theorem listMin_spec : ∀ (l : List Rat) (m : Rat), listMin l = some m →
    m ∈ l ∧ ∀ x ∈ l, m ≤ x
  | [], m, h => absurd h (by simp [listMin])
  | x :: xs, m, h => by
      rw [show listMin (x :: xs) = (match listMin xs with
        | none => some x
        | some m2 => some (min x m2)) from rfl] at h
      cases hx : listMin xs with
      | none =>
          rw [hx] at h
          injection h with h
          subst h
          have hnil : xs = [] := (listMin_eq_none_iff xs).mp hx
          subst hnil
          exact ⟨by simp, by simp⟩
      | some m2 =>
          rw [hx] at h
          injection h with h
          subst h
          obtain ⟨hmem, hle⟩ := listMin_spec xs m2 hx
          constructor
          · rcases min_choice x m2 with hc | hc
            · rw [hc]; exact List.mem_cons_self x xs
            · rw [hc]; exact List.mem_cons_of_mem x hmem
          · intro y hy
            rcases List.mem_cons.mp hy with he | hm2
            · rw [he]; exact min_le_left x m2
            · exact le_trans (min_le_right x m2) (hle y hm2)

/-- C8 (amended): the three temperature statistics are the render of the
SQL average / maximum / minimum over exactly the non-null temperatures of
the filtered events; the maximum and minimum aggregates really bound the
set, the average is sum over count, and each statistic equals its
aggregate whenever that aggregate is non-zero — a zero aggregate (and an
empty set) renders as null because the code tests Python truthiness. -/
theorem temperature_stats_spec (db : DB) (sd ed : Option Timestamp) :
    (temperature_stats db sd ed).average =
      renderTemp (ratAvg (filteredTemps db sd ed)) ∧
    (temperature_stats db sd ed).maximum =
      renderTemp (listMax (filteredTemps db sd ed)) ∧
    (temperature_stats db sd ed).minimum =
      renderTemp (listMin (filteredTemps db sd ed)) ∧
    (∀ m, listMax (filteredTemps db sd ed) = some m →
      m ∈ filteredTemps db sd ed ∧ (∀ x ∈ filteredTemps db sd ed, x ≤ m) ∧
      (m ≠ 0 → (temperature_stats db sd ed).maximum = some m)) ∧
    (∀ m, listMin (filteredTemps db sd ed) = some m →
      m ∈ filteredTemps db sd ed ∧ (∀ x ∈ filteredTemps db sd ed, m ≤ x) ∧
      (m ≠ 0 → (temperature_stats db sd ed).minimum = some m)) ∧
    (filteredTemps db sd ed ≠ [] →
      ratAvg (filteredTemps db sd ed) =
        some ((filteredTemps db sd ed).sum /
          (filteredTemps db sd ed).length)) ∧
    (∀ q, ratAvg (filteredTemps db sd ed) = some q → q ≠ 0 →
      (temperature_stats db sd ed).average = some q) := by
  refine ⟨rfl, rfl, rfl, ?_, ?_, ?_, ?_⟩
  · intro m hm
    obtain ⟨h1, h2⟩ := listMax_spec _ m hm
    refine ⟨h1, h2, ?_⟩
    intro hm0
    show renderTemp (listMax (filteredTemps db sd ed)) = some m
    rw [hm]
    simp [renderTemp, hm0]
  · intro m hm
    obtain ⟨h1, h2⟩ := listMin_spec _ m hm
    refine ⟨h1, h2, ?_⟩
    intro hm0
    show renderTemp (listMin (filteredTemps db sd ed)) = some m
    rw [hm]
    simp [renderTemp, hm0]
  · intro hne
    unfold ratAvg
    rw [if_neg (by simp [hne])]
  · intro q hq hq0
    show renderTemp (ratAvg (filteredTemps db sd ed)) = some q
    rw [hq]
    simp [renderTemp, hq0]

/-- C8 witness: with temperatures 5 and 3, the rendered maximum is 5 and
the rendered minimum is 3. -/
theorem temperature_stats_spec_witness :
    (5 : Rat) ∈ filteredTemps c8wdb none none ∧
    (temperature_stats c8wdb none none).maximum = some 5 ∧
    (temperature_stats c8wdb none none).minimum = some 3 := by
  have h := temperature_stats_spec c8wdb none none
  have hmax : listMax (filteredTemps c8wdb none none) = some 5 := by
    show listMax [5, 3] = some 5
    norm_num [listMax]
  have hmin : listMin (filteredTemps c8wdb none none) = some 3 := by
    show listMin [5, 3] = some 3
    norm_num [listMin]
  exact ⟨(h.2.2.2.1 5 hmax).1, (h.2.2.2.1 5 hmax).2.2 (by norm_num),
    (h.2.2.2.2.1 3 hmin).2.2 (by norm_num)⟩

theorem matchesFilters_iff (sd ed : Option Timestamp)
    (g it nd : Option String) (e : Event) :
    matchesFilters sd ed g it nd e = true ↔
      specMatchesFilters sd ed g it nd e := by
  unfold matchesFilters specMatchesFilters
  cases sd <;> cases ed <;> cases g <;> cases it <;> cases nd <;>
    simp [and_assoc]

/-- C7: `get_gpu_data` returns exactly the events satisfying the
conjunction of the supplied filters (start/end dates inclusive, omitted
filters unconstrained — the executable predicate coincides with the
spec's contract), ordered most-recent-first, each enriched by left join
with its metadata row, `model`/`location` null when none matches. -/
theorem get_gpu_data_spec (db : DB) (sd ed : Option Timestamp)
    (g it nd : Option String) :
    (∀ e, matchesFilters sd ed g it nd e = true ↔
      specMatchesFilters sd ed g it nd e) ∧
    ((get_gpu_data db sd ed g it nd).map EventOut.eventPart).Perm
      (db.events.filter (matchesFilters sd ed g it nd)) ∧
    (get_gpu_data db sd ed g it nd).Pairwise
      (fun a b => b.timestamp ≤ a.timestamp) ∧
    (∀ r ∈ get_gpu_data db sd ed g it nd,
      r.eventPart ∈ db.events ∧
      specMatchesFilters sd ed g it nd r.eventPart ∧
      r.model = (findMeta db.metadata r.gpu_id).bind (fun x => x.model) ∧
      r.location =
        (findMeta db.metadata r.gpu_id).bind (fun x => x.location) ∧
      (findMeta db.metadata r.gpu_id = none →
        r.model = none ∧ r.location = none)) := by
  haveI hto : IsTotal Event (fun a b => b.timestamp ≤ a.timestamp) :=
    ⟨fun a b => le_total b.timestamp a.timestamp⟩
  haveI htr : IsTrans Event (fun a b => b.timestamp ≤ a.timestamp) :=
    ⟨fun _ _ _ hab hbc => le_trans hbc hab⟩
  refine ⟨matchesFilters_iff sd ed g it nd, ?_, ?_, ?_⟩
  · unfold get_gpu_data
    rw [List.map_map]
    rw [show EventOut.eventPart ∘ enrich db.metadata = id from
      funext fun e => rfl]
    rw [List.map_id]
    exact List.perm_insertionSort _ _
  · unfold get_gpu_data
    rw [List.pairwise_map]
    exact (List.sorted_insertionSort
      (fun a b : Event => b.timestamp ≤ a.timestamp)
      (db.events.filter (matchesFilters sd ed g it nd))).imp (fun h => h)
  · intro r hr
    simp only [get_gpu_data] at hr
    obtain ⟨e, he, hre⟩ := List.mem_map.mp hr
    have he2 : e ∈ db.events.filter (matchesFilters sd ed g it nd) := by
      simpa using he
    obtain ⟨hmem, hmat⟩ := List.mem_filter.mp he2
    subst hre
    refine ⟨hmem, (matchesFilters_iff sd ed g it nd e).mp hmat, rfl, rfl, ?_⟩
    intro hnone
    have hn2 : findMeta db.metadata e.gpu_id = none := hnone
    constructor
    · show (findMeta db.metadata e.gpu_id).bind (fun x => x.model) = none
      rw [hn2]
      rfl
    · show (findMeta db.metadata e.gpu_id).bind (fun x => x.location) = none
      rw [hn2]
      rfl

/-- C7 witness: the contract instantiated on the concrete database. -/
theorem get_gpu_data_spec_witness :
    ((get_gpu_data c7db none none none none none).map
      EventOut.eventPart).Perm
      (c7db.events.filter (matchesFilters none none none none none)) ∧
    (get_gpu_data c7db none none none none none).Pairwise
      (fun a b => b.timestamp ≤ a.timestamp) :=
  ⟨(get_gpu_data_spec c7db none none none none none).2.1,
   (get_gpu_data_spec c7db none none none none none).2.2.1⟩

end GpuThermal
